import Mathlib

/-!
Shallow embedding of the WikiRace arena room orchestrator (src/api.py):
string normalization helpers, the article-graph database, the LLM answer
extraction and retry loop, the move validator, and the room operations,
together with theorems settling the frozen claims about them.
-/

namespace WikiRace

/-! ### Python string helpers (api.py: `_titles_match`, `_strip_wiki_fragment`, `.strip()`, `.replace("_", " ")`, `.lower()`) -/

/-- Model of Python `s.replace("_", " ")`. -/
def replaceUnderscores (l : List Char) : List Char :=
  l.map (fun c => if c = '_' then ' ' else c)

/-- Model of Python `s.strip()`: drop whitespace from both ends. -/
def trimChars (l : List Char) : List Char :=
  ((l.dropWhile Char.isWhitespace).reverse.dropWhile Char.isWhitespace).reverse

/-- Python `s.strip()` on a `String`. -/
def pyStrip (s : String) : String :=
  String.mk (trimChars s.toList)

/-- Python `s.replace("_", " ").strip()`, the title normalization used throughout api.py. -/
def pyNormTitle (s : String) : String :=
  String.mk (trimChars (replaceUnderscores s.toList))

/-- Python `s.replace("_", " ").strip().lower()` (ASCII lowering). -/
def pyNormCI (s : String) : String :=
  String.mk ((trimChars (replaceUnderscores s.toList)).map Char.toLower)

/-- api.py `_titles_match`. -/
def titles_match (a b : String) : Bool :=
  pyNormCI a == pyNormCI b

/-- api.py `_strip_wiki_fragment`: everything before the first `#`. -/
def strip_wiki_fragment (s : String) : String :=
  String.mk (s.toList.takeWhile (fun c => c ≠ '#'))

/-- Python `opt or default` for an optional string (None and "" are falsy). -/
def pyOrStr (o : Option String) (d : String) : String :=
  match o with
  | some s => if s = "" then d else s
  | none => d

/-- Python `n or 0` for an integer already known to be non-None. -/
def pyOrZero (n : Nat) : Nat :=
  if n = 0 then 0 else n

/-- api.py `_env_positive_int`: parse an environment value, falling back to the default
when absent, unparsable or non-positive. -/
def env_positive_int (raw : Option String) (default : Int) : Int :=
  let r := pyStrip (raw.getD "")
  if r = "" then default
  else
    match r.toInt? with
    | none => default
    | some v => if v > 0 then v else default

/-! ### Article-graph database (api.py class `SQLiteDB`) -/

/-- The read-only article graph: ordered rows of `(title, outbound links)`,
modelling the `core_articles` table. -/
structure DB where
  articles : List (String × List String)
deriving DecidableEq, Repr

/-- api.py `SQLiteDB.get_article_with_links`: `(None, [])` when the row is missing. -/
def DB.get_article_with_links (db : DB) (article_title : String) : Option String × List String :=
  match db.articles.find? (fun r => r.1 = article_title) with
  | some r => (some r.1, r.2)
  | none => (none, [])

/-- api.py `SQLiteDB.resolve_title`: normalize, exact match first, then a
case-insensitive match (`COLLATE NOCASE`, modelled as ASCII lowering). -/
def DB.resolve_title (db : DB) (article_title : String) : Option String :=
  if article_title = "" then none
  else
    let title := pyNormTitle article_title
    if title = "" then none
    else
      match db.articles.find? (fun r => r.1 = title) with
      | some r => some r.1
      | none =>
        match db.articles.find? (fun r => String.mk (r.1.toList.map Char.toLower) = String.mk (title.toList.map Char.toLower)) with
        | some r => some r.1
        | none => none

/-- The redirect chase inside api.py `SQLiteDB.canonical_title`: follow
single-link pages for at most `fuel` hops, stopping on a miss, a branch,
an unresolvable link or a cycle. -/
def DB.canonicalChase (db : DB) : Nat → String → List String → String
  | 0, current, _ => current
  | fuel + 1, current, seen =>
    match db.get_article_with_links current with
    | (some title, links) =>
      if title = "" then current
      else
        match links with
        | [link] =>
          match db.resolve_title link with
          | some cand =>
            if cand = "" then current
            else if cand ∈ seen then current
            else db.canonicalChase fuel cand (cand :: seen)
          | none => current
        | _ => current
    | (none, _) => current

/-- api.py `SQLiteDB.canonical_title`: resolve then chase up to six single-link stubs. -/
def DB.canonical_title (db : DB) (article_title : String) : Option String :=
  match db.resolve_title article_title with
  | none => none
  | some resolved =>
    if resolved = "" then none
    else some (db.canonicalChase 6 resolved [resolved])

/-! ### Answer extraction (api.py `ANSWER_TAG_RE`, `_extract_answer`) -/

/-- Case-insensitive literal match: strip `pat` (given lowercase) from the
front of the input, returning the remainder. -/
def stripCI : List Char → List Char → Option (List Char)
  | [], rest => some rest
  | _ :: _, [] => none
  | p :: ps, c :: cs => if c.toLower = p then stripCI ps cs else none

def answerOpenTag : List Char := "<answer>".toList

def answerCloseTag : List Char := "</answer>".toList

/-- Try to match `<answer>(\d+)</answer>` (case-insensitive) at the head of the
input; on success return the parsed number and the remainder after the match. -/
def tryAnswerAt (l : List Char) : Option (Nat × List Char) :=
  match stripCI answerOpenTag l with
  | none => none
  | some r1 =>
    let ds := r1.takeWhile Char.isDigit
    if ds.isEmpty then none
    else
      match stripCI answerCloseTag (r1.dropWhile Char.isDigit) with
      | none => none
      | some r2 => some (ds.foldl (fun a c => a * 10 + (c.toNat - 48)) 0, r2)

/-- Left-to-right non-overlapping scan for `ANSWER_TAG_RE` matches. The fuel
starts at the input length and never runs out because every step consumes at
least one character. -/
def findAnswersAux : Nat → List Char → List Nat
  | 0, _ => []
  | _ + 1, [] => []
  | fuel + 1, c :: cs =>
    match tryAnswerAt (c :: cs) with
    | some (n, rest) => n :: findAnswersAux fuel rest
    | none => findAnswersAux fuel cs

/-- Model of `ANSWER_TAG_RE.findall(response)`, with the captured digit groups
already parsed to numbers (ASCII digits; `int()` cannot fail on them, so the
`ValueError` branch of `_extract_answer` is dead). -/
def answerNumbers (s : String) : List Nat :=
  findAnswersAux s.toList.length s.toList

def noAnswerMsg (maximum_answer : Nat) : String :=
  "No <answer>NUMBER</answer> found. Choose a number between 1 and " ++ toString maximum_answer ++ "."

def multipleAnswerMsg : String :=
  "Multiple <answer> tags found. Respond with exactly one."

def outOfBoundsMsg (maximum_answer : Nat) : String :=
  "Answer out of bounds. Choose a number between 1 and " ++ toString maximum_answer ++ "."

/-- api.py `_extract_answer`. -/
def extract_answer (response : String) (maximum_answer : Nat) : Option Nat × Option String :=
  let ms := answerNumbers response
  if ms.isEmpty then (none, some (noAnswerMsg maximum_answer))
  else if ms.length > 1 then (none, some multipleAnswerMsg)
  else
    let value := ms.headD 0
    if value < 1 || value > maximum_answer then (none, some (outOfBoundsMsg maximum_answer))
    else (some value, none)

/-! ### Room data model (the dict shapes built in api.py) -/

/-- A JSON-ish metadata value as stored on a step. -/
inductive MetaVal where
  | s (v : String)
  | i (v : Int)
  | b (v : Bool)
  | list (v : List String)
deriving DecidableEq, Repr

/-- A step's `metadata` dict, as an ordered key-value list. -/
abbrev Metadata := List (String × MetaVal)

/-- One event in a run (api.py step dicts). The Python key `at` is a Lean
keyword, hence the field name `at_`. -/
structure Step where
  type : String
  article : String
  at_ : String
  metadata : Option Metadata
deriving DecidableEq, Repr

/-- The room `rules` dict (normalized by `_normalize_room_rules`). -/
structure Rules where
  max_hops : Int
  max_links : Option Int
  max_tokens : Option Int
  include_image_links : Bool
  disable_links_view : Bool
deriving DecidableEq, Repr

/-- A human participant (api.py player dicts). -/
structure Player where
  id : String
  name : String
  connected : Bool
  joined_at : String
deriving DecidableEq, Repr

/-- One racer's attempt (api.py run dicts). Keys absent on a given run kind
are `none`. -/
structure Run where
  id : String
  kind : String
  player_id : Option String
  player_name : Option String
  model : Option String
  api_base : Option String
  openai_api_mode : Option String
  openai_reasoning_effort : Option String
  openai_reasoning_summary : Option String
  anthropic_thinking_budget_tokens : Option Int
  google_thinking_config : Option (List (String × String))
  max_steps : Int
  max_links : Option Int
  max_tokens : Option Int
  status : String
  result : Option String
  started_at : Option String
  finished_at : Option String
  steps : List Step
deriving DecidableEq, Repr

/-- A run with every optional key absent, used to build concrete runs. -/
def defaultRun : Run :=
  { id := "", kind := "human", player_id := none, player_name := none, model := none,
    api_base := none, openai_api_mode := none, openai_reasoning_effort := none,
    openai_reasoning_summary := none, anthropic_thinking_budget_tokens := none,
    google_thinking_config := none, max_steps := 20, max_links := none, max_tokens := none,
    status := "not_started", result := none, started_at := none, finished_at := none,
    steps := [] }

/-- A room (api.py room dicts). -/
structure Room where
  id : String
  status : String
  start_article : String
  destination_article : String
  rules : Rules
  owner_player_id : String
  created_at : String
  updated_at : String
  started_at : Option String
  finished_at : Option String
  players : List Player
  runs : List Run
deriving DecidableEq, Repr

/-- api.py `_room_run_by_id`. -/
def findRunById (room : Room) (run_id : String) : Option Run :=
  room.runs.find? (fun r => r.id = run_id)

/-- api.py `_room_run_for_player`. -/
def findRunForPlayer (room : Room) (player_id : String) : Option Run :=
  room.runs.find? (fun r => r.player_id = some player_id)

/-- Replace the first list element satisfying `p` (in-place mutation of the
run found by `_room_run_by_id` / `_room_run_for_player`). -/
def updateFirst (p : α → Bool) (f : α → α) : List α → List α
  | [] => []
  | x :: xs => if p x then f x :: xs else x :: updateFirst p f xs

/-- The outcome of a room endpoint: an `HTTPException` (with the room as it
stands when the exception is raised, since in-place mutations before the
raise survive), or a returned room together with whether a broadcast is
sent after the lock is released. -/
inductive RoomResult where
  | err (status : Nat) (detail : String) (room : Room)
  | ok (room : Room) (broadcast : Bool)
deriving DecidableEq, Repr

/-! ### Move validator (api.py `_validate_human_move`) -/

/-- The outcome of `_validate_human_move`: an `HTTPException`, the no-op
marker `(True, None)`, or a produced step `(False, step)`. -/
inductive ValidateResult where
  | error (status : Nat) (detail : String)
  | noop
  | step (s : Step)
deriving DecidableEq, Repr

/-- `canonical_next` as computed by `_validate_human_move` from the resolved
target: `db.canonical_title(resolved) or resolved`. -/
def canonicalNextOfResolved (db : DB) (resolved : String) : String :=
  pyOrStr (db.canonical_title resolved) resolved

/-- `canonical_current` as computed by `_validate_human_move`:
fragment-strip and normalize, `resolve_title(...) or raw`, then
`canonical_title(...) or resolved`. -/
def canonicalCurrentOf (db : DB) (current_article : String) : String :=
  let current_raw := pyNormTitle (strip_wiki_fragment current_article)
  let current_resolved := pyOrStr (db.resolve_title current_raw) current_raw
  pyOrStr (db.canonical_title current_resolved) current_resolved

/-- The `reached_target` computation of `_validate_human_move`: the canonical
target equals (case-insensitively) the normalized destination or its
canonicalization, guarded by Python truthiness. -/
def reachedTarget (db : DB) (canonical_next destination_raw : String) : Bool :=
  if canonical_next ≠ "" && destination_raw ≠ "" && titles_match canonical_next destination_raw then
    true
  else
    match db.canonical_title destination_raw with
    | some ct => canonical_next ≠ "" && ct ≠ "" && titles_match canonical_next ct
    | none => false

/-- api.py `_validate_human_move`. -/
def validate_human_move (db : DB) (current_article to_article destination_article : String)
    (current_hops max_hops : Int) (at_ : String) : ValidateResult :=
  let to_raw := pyNormTitle (strip_wiki_fragment to_article)
  if to_raw = "" then .error 400 "to_article is required"
  else
    match db.resolve_title to_raw with
    | none => .error 404 "Article not found"
    | some resolved =>
      if resolved = "" then .error 404 "Article not found"
      else
        let canonical_next := canonicalNextOfResolved db resolved
        let destination_raw := pyNormTitle destination_article
        if destination_raw = "" then .error 400 "destination_article is required"
        else
          let current_raw := pyNormTitle (strip_wiki_fragment current_article)
          if current_raw = "" then .error 400 "current_article is required"
          else
            let canonical_current := canonicalCurrentOf db current_article
            if titles_match canonical_current canonical_next then .noop
            else
              let current_hops_int : Int := if current_hops > 0 then current_hops else 0
              let next_hops := current_hops_int + 1
              let max_hops_int : Int := if max_hops > 0 then max_hops else 20
              match db.get_article_with_links canonical_current with
              | (none, _) => .error 400 ("Current article not found (" ++ canonical_current ++ ")")
              | (some title, links) =>
                if title = "" then .error 400 ("Current article not found (" ++ canonical_current ++ ")")
                else if !(links.contains resolved || links.contains canonical_next) then
                  .error 400 ("Invalid move: " ++ resolved ++ " is not a link from " ++ title)
                else if reachedTarget db canonical_next destination_raw then
                  .step { type := "win", article := destination_raw, at_ := at_, metadata := none }
                else if next_hops ≥ max_hops_int then
                  .step { type := "lose", article := canonical_next, at_ := at_,
                          metadata := some [("reason", .s "max_hops"), ("max_hops", .i max_hops_int)] }
                else
                  .step { type := "move", article := canonical_next, at_ := at_, metadata := none }

/-! ### Room endpoints (api.py `room_move`, `join_room`, `add_llm_run`,
`cancel_room_run`, `abandon_room_run`) -/

/-- The current article of a run in `room_move`: the last step's article,
falling back to the room's start article when there is no step or the
recorded article is falsy. -/
def currentArticleOf (room : Room) (run : Run) : String :=
  match run.steps.getLast? with
  | some s => if s.article = "" then room.start_article else s.article
  | none => room.start_article

/-- api.py `room_move` under the room lock (the registry lookup and the
post-lock broadcast are modelled by the result). -/
def room_move (db : DB) (room : Room) (player_id to_article : String) (now : String) : RoomResult :=
  if room.status ≠ "running" then .err 409 "Room is not running" room
  else
    match findRunForPlayer room player_id with
    | none => .err 404 "Player not in room" room
    | some run =>
      if run.status ≠ "running" then .err 409 "Run is not running" room
      else
        let steps := run.steps
        let current_article := currentArticleOf room run
        let current_hops : Int := max 0 ((steps.length : Int) - 1)
        let max_hops : Int := if room.rules.max_hops > 0 then room.rules.max_hops else 20
        if room.destination_article = "" then .err 500 "Room missing destination article" room
        else
          match validate_human_move db current_article to_article room.destination_article
              current_hops max_hops now with
          | .error s d => .err s d room
          | .noop => .ok room false
          | .step st =>
            let terminal := st.type = "win" || st.type = "lose"
            let run' :=
              { run with
                status := if terminal then "finished" else run.status,
                result := if terminal then some (if st.type = "win" then "win" else "lose") else run.result,
                finished_at := if terminal then some now else run.finished_at,
                steps := steps ++ [st] }
            .ok { room with
                  runs := updateFirst (fun r => r.player_id = some player_id) (fun _ => run') room.runs,
                  updated_at := now } true

/-- Re-opening of a `finished` room performed by `join_room` and
`add_llm_run` before they add the participant. -/
def reopenRoom (room : Room) : Room :=
  if room.status = "finished" then { room with status := "running", finished_at := none }
  else room

/-- api.py `join_room` under the room lock. The fresh `player_id` and
`run_id` are passed in (the endpoint draws them from `_make_code`). -/
def join_room (room : Room) (name : String) (player_id run_id now : String) : RoomResult :=
  let player_name := pyStrip name
  if player_name = "" then .err 400 "Name is required" room
  else
    let room := reopenRoom room
    let is_running := room.status = "running"
    let player : Player := { id := player_id, name := player_name, connected := false, joined_at := now }
    let newRun :=
      { defaultRun with
        id := run_id, kind := "human", player_id := some player_id,
        player_name := some player_name, max_steps := room.rules.max_hops,
        status := if is_running then "running" else "not_started",
        started_at := if is_running then some now else none,
        steps :=
          if is_running then [{ type := "start", article := room.start_article, at_ := now, metadata := none }]
          else [] }
    .ok { room with
          players := room.players ++ [player]
          runs := room.runs ++ [newRun]
          updated_at := now } true

/-- The request body of `add_llm_run`; `max_links_set` / `max_tokens_set`
model membership in `body.__fields_set__`. -/
structure AddLlmBody where
  model : String
  requested_by_player_id : String
  player_name : Option String
  api_base : Option String
  openai_api_mode : Option String
  openai_reasoning_effort : Option String
  openai_reasoning_summary : Option String
  anthropic_thinking_budget_tokens : Option Int
  google_thinking_config : Option (List (String × String))
  max_steps : Option Int
  max_links_set : Bool
  max_links : Option Int
  max_tokens_set : Bool
  max_tokens : Option Int
deriving DecidableEq, Repr

/-- Python `s.strip() or None` on an optional string field. -/
def strippedOrNone (o : Option String) : Option String :=
  match o with
  | some s => if pyStrip s = "" then none else some (pyStrip s)
  | none => none

/-- The LLM run dict built by `add_llm_run` (taking the already re-opened
room, whose status decides whether the run starts immediately). -/
def addLlmNewRun (room : Room) (body : AddLlmBody) (run_id now : String) : Run :=
  let is_running := room.status = "running"
  let ms0 : Option Int :=
    match body.max_steps with
    | some v => if v > 0 then some v else none
    | none => none
  let ms1 : Int := match ms0 with | some v => v | none => room.rules.max_hops
  let max_steps : Int := if ms1 > 0 then ms1 else 20
  let max_links : Option Int :=
    if body.max_links_set then
      match body.max_links with
      | some v => if v > 0 then some v else none
      | none => none
    else room.rules.max_links
  let max_tokens : Option Int :=
    if body.max_tokens_set then
      match body.max_tokens with
      | some v => if v > 0 then some v else none
      | none => none
    else room.rules.max_tokens
  { id := run_id, kind := "llm",
    player_id := none,
    player_name := strippedOrNone body.player_name,
    model := some (pyStrip body.model),
    api_base := strippedOrNone body.api_base,
    openai_api_mode := strippedOrNone body.openai_api_mode,
    openai_reasoning_effort := strippedOrNone body.openai_reasoning_effort,
    openai_reasoning_summary := strippedOrNone body.openai_reasoning_summary,
    anthropic_thinking_budget_tokens :=
      match body.anthropic_thinking_budget_tokens with
      | some v => if v > 0 then some v else none
      | none => none,
    google_thinking_config :=
      match body.google_thinking_config with
      | some g => if g.isEmpty then none else some g
      | none => none,
    max_steps := max_steps, max_links := max_links, max_tokens := max_tokens,
    status := if is_running then "running" else "not_started",
    started_at := if is_running then some now else none,
    finished_at := none, result := none,
    steps :=
      if is_running then [{ type := "start", article := room.start_article, at_ := now, metadata := none }]
      else [] }

/-- The number of non-finished LLM runs counted against the cap by
`add_llm_run`. -/
def activeLlmRunCount (room : Room) : Nat :=
  (room.runs.filter (fun r => r.kind = "llm" && r.status ≠ "finished")).length

/-- api.py `add_llm_run` under the room lock, parameterized by the hard cap
`WIKIRACE_MAX_LLM_RUNS_PER_ROOM` and the fresh run id. -/
def add_llm_run (cap : Nat) (room : Room) (body : AddLlmBody) (run_id : String) (now : String) :
    RoomResult :=
  let model := pyStrip body.model
  if model = "" then .err 400 "model is required" room
  else if body.requested_by_player_id ≠ room.owner_player_id then
    .err 403 "Only the host can add AI players" room
  else
    let room := reopenRoom room
    if activeLlmRunCount room ≥ cap then
      .err 409 ("Room already has " ++ toString (activeLlmRunCount room) ++ " AI runs (max " ++ toString cap ++ ")") room
    else
      .ok { room with runs := room.runs ++ [addLlmNewRun room body run_id now], updated_at := now } true

/-- The "last known article" used when `cancel_room_run` / `abandon_room_run`
record a terminal lose step: the last step's article (or the start article
when there are no steps), falling back to `start_article or ""` when falsy. -/
def lastKnownArticle (room : Room) (run : Run) : String :=
  let c0 :=
    match run.steps.getLast? with
    | some s => s.article
    | none => room.start_article
  if c0 = "" then room.start_article else c0

/-- The terminal state `cancel_room_run` forces on a running LLM run: a
`lose` step with `reason=cancelled` at the last known article, status
`finished`, result `lose`. -/
def cancelledRun (room : Room) (run : Run) (now : String) : Run :=
  { run with
    steps := run.steps ++
      [{ type := "lose", article := lastKnownArticle room run, at_ := now,
         metadata := some [("reason", .s "cancelled")] }],
    status := "finished", result := some "lose", finished_at := some now }

/-- api.py `cancel_room_run` under the room lock (the executor signalling
`_cancel_room_task` has no room-state effect). -/
def cancel_room_run (room : Room) (run_id requested_by : String) (now : String) : RoomResult :=
  if requested_by ≠ room.owner_player_id then .err 403 "Only the host can cancel runs" room
  else
    match findRunById room run_id with
    | none => .err 404 "Run not found" room
    | some run =>
      if run.kind ≠ "llm" then .err 400 "Only AI runs can be cancelled" room
      else if run.status = "finished" then .ok room false
      else if run.status = "not_started" then
        .ok { room with runs := room.runs.filter (fun r => r.id ≠ run_id), updated_at := now } true
      else
        .ok { room with
              runs := updateFirst (fun r => r.id = run_id)
                (fun _ => cancelledRun room run now) room.runs
              updated_at := now } true

/-- api.py `abandon_room_run` under the room lock. -/
def abandon_room_run (room : Room) (run_id requested_by : String) (now : String) : RoomResult :=
  match findRunById room run_id with
  | none => .err 404 "Run not found" room
  | some run =>
    if run.kind ≠ "human" then .err 400 "Only human runs can be abandoned" room
    else
      match run.player_id with
      | none => .err 403 "Only the owning player can abandon" room
      | some pid =>
        if pid = "" then .err 403 "Only the owning player can abandon" room
        else if requested_by ≠ pid then .err 403 "Only the owning player can abandon" room
        else if run.status = "finished" then .ok room false
        else
          let current_article := lastKnownArticle room run
          let run' :=
            { run with
              steps := run.steps ++
                [{ type := "lose", article := current_article, at_ := now,
                   metadata := some [("abandoned", .b true), ("reason", .s "abandoned")] }],
              status := "finished", result := some "abandoned", finished_at := some now }
          .ok { room with
                runs := updateFirst (fun r => r.id = run_id) (fun _ => run') room.runs
                updated_at := now } true

/-! ### Executor commit functions (api.py `_finish_llm_run`, `_fail_llm_run`) -/

/-- The run's last-step article, falling back to the room's start article
(the commit-time recheck value in `_finish_llm_run`). -/
def lastArticleOf (room : Room) (run : Run) : String :=
  match run.steps.getLast? with
  | some s => s.article
  | none => room.start_article

/-- api.py `_finish_llm_run`: commit one executor step under the re-acquired
lock. Returns the room (unchanged when the commit is aborted) and whether a
broadcast follows. -/
def finish_llm_run (db : DB) (room : Room) (run_id article : String) (step_type : String)
    (metadata : Option Metadata) (forced_article : Option String)
    (expected_current : Option String) (now : String) : Room × Bool :=
  if room.status ≠ "running" then (room, false)
  else
    match findRunById room run_id with
    | none => (room, false)
    | some run =>
      if run.status ≠ "running" then (room, false)
      else
        let abortOnStale : Bool :=
          match expected_current with
          | some expected => lastArticleOf room run ≠ expected
          | none => false
        if abortOnStale then (room, false)
        else
          let step_article0 := pyOrStr forced_article article
          let step_article :=
            if step_type = "move" || step_type = "lose" then
              pyOrStr (db.canonical_title step_article0) step_article0
            else step_article0
          let step : Step :=
            { type := step_type, article := step_article, at_ := now,
              metadata :=
                match metadata with
                | some m => if m.isEmpty then none else some m
                | none => none }
          let terminal := step_type = "win" || step_type = "lose"
          let run' :=
            { run with
              steps := run.steps ++ [step],
              status := if terminal then "finished" else run.status,
              result := if terminal then some (if step_type = "win" then "win" else "lose") else run.result,
              finished_at := if terminal then some now else run.finished_at }
          ({ room with
             runs := updateFirst (fun r => r.id = run_id) (fun _ => run') room.runs
             updated_at := now }, true)

/-- api.py `_fail_llm_run`: commit a terminal lose step for an executor
error. Unlike `_finish_llm_run` it re-checks only that the run still exists
with status `running`: there is no room-status recheck and no
`expected_current` article recheck. -/
def fail_llm_run (room : Room) (run_id : String) (article : Option String)
    (reason : String) (error : Option String) (now : String) : Room × Bool :=
  match findRunById room run_id with
  | none => (room, false)
  | some run =>
    if run.status ≠ "running" then (room, false)
    else
      let c0 :=
        match article with
        | some a => if a = "" then none else some a
        | none => none
      let c1 :=
        match c0 with
        | some a => a
        | none =>
          match run.steps.getLast? with
          | some s => s.article
          | none => room.start_article
      let current_article := if c1 = "" then room.start_article else c1
      let meta : Metadata :=
        match error with
        | some e => if e = "" then [("reason", .s reason)] else [("reason", .s reason), ("error", .s e)]
        | none => [("reason", .s reason)]
      let run' :=
        { run with
          steps := run.steps ++
            [{ type := "lose", article := current_article, at_ := now, metadata := some meta }],
          status := "finished", result := some "lose", finished_at := some now }
      ({ room with
         runs := updateFirst (fun r => r.id = run_id) (fun _ => run') room.runs
         updated_at := now }, true)

/-! ### LLM decision protocol (api.py `_build_llm_prompt`, `_choose_llm_link`,
`llm_choose_link`) -/

/-- The usage payload produced by `_call_llm`: each counter is present only
when the provider reported it as an integer. -/
structure Usage where
  prompt_tokens : Option Int
  completion_tokens : Option Int
  total_tokens : Option Int
deriving DecidableEq, Repr

/-- The running usage sums and observation flags of `_choose_llm_link`. -/
structure UsageAcc where
  pSum : Int
  cSum : Int
  tSum : Int
  sawP : Bool
  sawC : Bool
  sawAny : Bool
deriving DecidableEq, Repr

def initUsageAcc : UsageAcc := { pSum := 0, cSum := 0, tSum := 0, sawP := false, sawC := false, sawAny := false }

/-- One iteration of the usage accounting in `_choose_llm_link` (lines
902-924): sum each present counter, synthesizing `total_tokens` from the
parts when it is absent. -/
def usageStep (acc : UsageAcc) (u : Option Usage) : UsageAcc :=
  match u with
  | none => acc
  | some up =>
    let acc :=
      match up.prompt_tokens with
      | some p => { acc with pSum := acc.pSum + p, sawP := true, sawAny := true }
      | none => acc
    let acc :=
      match up.completion_tokens with
      | some c => { acc with cSum := acc.cSum + c, sawC := true, sawAny := true }
      | none => acc
    match up.total_tokens with
    | some t => { acc with tSum := acc.tSum + t, sawAny := true }
    | none =>
      if up.prompt_tokens.isSome || up.completion_tokens.isSome then
        { acc with
          tSum := acc.tSum + up.prompt_tokens.getD 0 + up.completion_tokens.getD 0
          sawAny := true }
      else acc

/-- api.py `_build_llm_prompt`. -/
def build_llm_prompt (current target : String) (path_so_far links : List String) : String :=
  let formatted_links :=
    String.intercalate "\n" (links.enum.map (fun p => toString (p.1 + 1) ++ ". " ++ p.2))
  let formatted_path := String.intercalate " -> " path_so_far
  "You are playing WikiRun, trying to navigate from one Wikipedia article to another using only links.\n\n"
    ++ "IMPORTANT: You MUST put your final answer in <answer>NUMBER</answer> tags, where NUMBER is the link number.\n"
    ++ "For example, if you want to choose link 3, output <answer>3</answer>.\n\n"
    ++ "Current article: " ++ current ++ "\n"
    ++ "Target article: " ++ target ++ "\n"
    ++ "Available links (numbered):\n"
    ++ formatted_links ++ "\n\n"
    ++ "Your path so far: " ++ formatted_path ++ "\n\n"
    ++ "Think about which link is most likely to lead you toward the target article.\n"
    ++ "First, analyze each link briefly and how it connects to your goal, then select the most promising one.\n\n"
    ++ "Remember to format your final answer by explicitly writing out the xml number tags like this: <answer>NUMBER</answer>"

/-- The hint appended to the base prompt after a malformed attempt. -/
def retryPrompt (basePrompt error : String) : String :=
  basePrompt ++ "\n\nIMPORTANT: " ++ error

/-- The interaction trace of the retry loop in `_choose_llm_link`: the chosen
answer with its zero-based `try_num`, and the per-attempt responses, recorded
parse errors, prompts issued, and usage payloads, in attempt order. -/
structure ChooseRaw where
  chosen : Option (Nat × Nat)
  outputs : List String
  errors : List String
  prompts : List String
  usages : List (Option Usage)
deriving DecidableEq, Repr

/-- The retry loop of `_choose_llm_link` (lines 886-934). The LLM gateway is
an oracle from the prompt to the response text and usage payload. The loop
stops at the first successful parse; on a malformed attempt it records the
error and re-prompts with the base prompt plus the `IMPORTANT:` hint. -/
def chooseGo (oracle : String → String × Option Usage) (basePrompt : String) (numLinks : Nat) :
    Nat → Nat → String → ChooseRaw
  | _, 0, _ => { chosen := none, outputs := [], errors := [], prompts := [], usages := [] }
  | tryNum, remaining + 1, prompt =>
    let res := oracle prompt
    match extract_answer res.1 numLinks with
    | (some answer, _) =>
      { chosen := some (answer, tryNum), outputs := [res.1], errors := [], prompts := [prompt],
        usages := [res.2] }
    | (none, some e) =>
      let rest := chooseGo oracle basePrompt numLinks (tryNum + 1) remaining (retryPrompt basePrompt e)
      { chosen := rest.chosen, outputs := res.1 :: rest.outputs, errors := e :: rest.errors,
        prompts := prompt :: rest.prompts, usages := res.2 :: rest.usages }
    | (none, none) =>
      let rest := chooseGo oracle basePrompt numLinks (tryNum + 1) remaining prompt
      { chosen := rest.chosen, outputs := res.1 :: rest.outputs, errors := rest.errors,
        prompts := prompt :: rest.prompts, usages := res.2 :: rest.usages }

/-- The metadata dict returned by `_choose_llm_link`; optional fields model
keys that are present only in some outcomes. -/
structure ChooseMeta where
  tries : Nat
  answer_errors : Option (List String)
  llm_output : Option String
  llm_outputs : Option (List String)
  prompt_tokens : Option Int
  completion_tokens : Option Int
  total_tokens : Option Int
deriving DecidableEq, Repr

/-- The full interaction trace of one `_choose_llm_link` call. -/
def choose_llm_link_raw (oracle : String → String × Option Usage)
    (current_article target_article : String) (path_so_far links : List String)
    (max_tries : Nat) : ChooseRaw :=
  let base := build_llm_prompt current_article target_article path_so_far links
  chooseGo oracle base links.length 0 max_tries base

/-- api.py `_choose_llm_link`: the retry loop plus the metadata assembly of
lines 936-965. -/
def choose_llm_link (oracle : String → String × Option Usage)
    (current_article target_article : String) (path_so_far links : List String)
    (max_tries : Nat) : Option Nat × ChooseMeta :=
  let raw := choose_llm_link_raw oracle current_article target_article path_so_far links max_tries
  let u := raw.usages.foldl usageStep initUsageAcc
  let lastOut := raw.outputs.getLast?
  let outs := if raw.outputs.length > 1 then some raw.outputs else none
  let pTok := if u.sawAny && u.sawP then some u.pSum else none
  let cTok := if u.sawAny && u.sawC then some u.cSum else none
  let tTok := if u.sawAny then some u.tSum else none
  match raw.chosen with
  | none =>
    (none,
     { tries := max_tries, answer_errors := some raw.errors, llm_output := lastOut,
       llm_outputs := outs, prompt_tokens := pTok, completion_tokens := cTok,
       total_tokens := tTok })
  | some (answer, usedTry) =>
    (some answer,
     { tries := pyOrZero usedTry, answer_errors := none, llm_output := lastOut,
       llm_outputs := outs, prompt_tokens := pTok, completion_tokens := cTok,
       total_tokens := tTok })

/-- The `max_tries` normalization of the `llm_choose_link` endpoint (api.py
lines 3377-3382): positive requested value or the default 3, hard-capped
at 10. -/
def llm_choose_link_max_tries (requested : Option Int) : Int :=
  let mt : Int :=
    match requested with
    | some v => if v > 0 then v else 3
    | none => 3
  min mt 10

/-- The `max_tries` used by the room executor path (`_compute_llm_next_step`
calls `_choose_llm_link` with `max_tries=3`). -/
def compute_llm_next_step_max_tries : Nat := 3

/-! ### Helper lemmas -/

theorem pyOrZero_eq (n : Nat) : pyOrZero n = n := by
  unfold pyOrZero
  split <;> omega

/-- `_extract_answer` always returns either a chosen index with no error or
no index with an error message; in particular the `ValueError` branch is
dead and a failed parse always carries an error string. -/
theorem extract_answer_shape (s : String) (n : Nat) :
    (∃ v, extract_answer s n = (some v, none)) ∨ (∃ e, extract_answer s n = (none, some e)) := by
  unfold extract_answer
  dsimp only
  split_ifs with h1 h2 h3
  · right; exact ⟨_, rfl⟩
  · right; exact ⟨_, rfl⟩
  · right; exact ⟨_, rfl⟩
  · left; exact ⟨_, rfl⟩

theorem updateFirst_find? (p : α → Bool) (f : α → α) :
    ∀ (l : List α) (x : α), l.find? p = some x → p (f x) = true →
      (updateFirst p f l).find? p = some (f x)
  | [], x, hx, _ => by simp at hx
  | a :: as, x, hx, hfx => by
    by_cases ha : p a
    · have hxa : x = a := by
        rw [List.find?_cons_of_pos _ ha] at hx
        exact (Option.some_inj.mp hx).symm
      subst hxa
      simp [updateFirst, ha, List.find?_cons_of_pos _ hfx]
    · rw [List.find?_cons_of_neg _ ha] at hx
      have hpa : p a = false := by simp [ha]
      simp only [updateFirst, hpa, Bool.false_eq_true, if_false]
      rw [List.find?_cons_of_neg _ ha]
      exact updateFirst_find? p f as x hx hfx

/-! ### C6 -/

/-- C6: for every LLM response text and link count, `_extract_answer` errors
when there are zero case-insensitive `<answer>(digits)</answer>` matches,
errors when there is more than one match, errors when the single matched
integer lies outside `1..n`, and otherwise returns the matched integer as
the chosen 1-based index. -/
theorem c6_extract_answer (response : String) (maximum_answer : Nat) :
    (answerNumbers response = [] →
      extract_answer response maximum_answer = (none, some (noAnswerMsg maximum_answer))) ∧
    (1 < (answerNumbers response).length →
      extract_answer response maximum_answer = (none, some multipleAnswerMsg)) ∧
    (∀ v, answerNumbers response = [v] →
      ((v < 1 ∨ maximum_answer < v) →
        extract_answer response maximum_answer = (none, some (outOfBoundsMsg maximum_answer))) ∧
      (1 ≤ v → v ≤ maximum_answer →
        extract_answer response maximum_answer = (some v, none))) := by
  refine ⟨?_, ?_, ?_⟩
  · intro h
    simp [extract_answer, h]
  · intro h
    have hne : (answerNumbers response).isEmpty = false := by
      cases he : answerNumbers response with
      | nil => rw [he] at h; simp at h
      | cons a as => simp
    simp [extract_answer, hne, h]
  · intro v hv
    constructor
    · intro hout
      simp [extract_answer, hv]
      omega
    · intro h1 h2
      simp [extract_answer, hv]
      omega

/-- C6 witness: a concrete response with one case-insensitive answer tag. -/
theorem c6_extract_answer_witness :
    extract_answer "I pick <AnSwEr>2</answer>" 5 = (some 2, none) :=
  ((c6_extract_answer "I pick <AnSwEr>2</answer>" 5).2.2 2 (by decide)).2 (by decide) (by decide)

/-! ### Trace properties of the `_choose_llm_link` retry loop -/

/-- Invariants of the retry loop: at most `r` attempts; the first prompt is
the prompt passed in; every later prompt is the base prompt plus the
`IMPORTANT:` hint for the previous attempt's error; exhaustion means exactly
`r` attempts and `r` recorded errors; success at zero-based try `u` means
exactly `u - tryNum + 1` attempts were made (the loop stops immediately). -/
theorem chooseGo_trace (oracle : String → String × Option Usage) (base : String) (n : Nat) :
    ∀ (r tryNum : Nat) (prompt : String),
      ((chooseGo oracle base n tryNum r prompt).prompts.length ≤ r) ∧
      ((chooseGo oracle base n tryNum r prompt).outputs.length =
        (chooseGo oracle base n tryNum r prompt).prompts.length) ∧
      (0 < (chooseGo oracle base n tryNum r prompt).prompts.length →
        (chooseGo oracle base n tryNum r prompt).prompts[0]? = some prompt) ∧
      ((chooseGo oracle base n tryNum r prompt).chosen = none →
        (chooseGo oracle base n tryNum r prompt).prompts.length = r ∧
        (chooseGo oracle base n tryNum r prompt).errors.length = r) ∧
      (∀ a u, (chooseGo oracle base n tryNum r prompt).chosen = some (a, u) →
        u + 1 = tryNum + (chooseGo oracle base n tryNum r prompt).prompts.length ∧
        (chooseGo oracle base n tryNum r prompt).errors.length + 1 =
          (chooseGo oracle base n tryNum r prompt).prompts.length) ∧
      (∀ i, i + 1 < (chooseGo oracle base n tryNum r prompt).prompts.length →
        (chooseGo oracle base n tryNum r prompt).prompts[i + 1]? =
          ((chooseGo oracle base n tryNum r prompt).errors[i]?).map (retryPrompt base)) := by
  intro r
  induction r with
  | zero =>
    intro tryNum prompt
    simp [chooseGo]
  | succ r ih =>
    intro tryNum prompt
    rcases extract_answer_shape (oracle prompt).1 n with ⟨v, hv⟩ | ⟨e, he⟩
    · simp only [chooseGo, hv]
      refine ⟨by simp, by simp, by simp, by simp, ?_, ?_⟩
      · intro a u h
        simp only [Option.some_inj, Prod.mk.injEq] at h
        obtain ⟨hva, hu⟩ := h
        subst hu
        simp
      · intro i hi
        simp only [List.length_cons, List.length_nil] at hi
        omega
    · have ihr := ih (tryNum + 1) (retryPrompt base e)
      simp only [chooseGo, he]
      obtain ⟨ih1, ih2, ih3, ih4, ih5, ih6⟩ := ihr
      refine ⟨?_, ?_, ?_, ?_, ?_, ?_⟩
      · simpa using Nat.succ_le_succ ih1
      · simpa using ih2
      · intro _
        simp
      · intro hc
        obtain ⟨hl, herr⟩ := ih4 hc
        constructor
        · simpa using hl
        · simpa using herr
      · intro a u hc
        obtain ⟨h1, h2⟩ := ih5 a u hc
        constructor
        · simp only [List.length_cons]
          omega
        · simp only [List.length_cons]
          omega
      · intro i hi
        cases i with
        | zero =>
          have hlen : 0 < (chooseGo oracle base n (tryNum + 1) r (retryPrompt base e)).prompts.length := by
            simp only [List.length_cons] at hi
            omega
          have h0 := ih3 hlen
          simp only [List.getElem?_cons_succ, List.getElem?_cons_zero, Option.map_some]
          exact h0
        | succ j =>
          have hj : j + 1 < (chooseGo oracle base n (tryNum + 1) r (retryPrompt base e)).prompts.length := by
            simp only [List.length_cons] at hi
            omega
          have hch := ih6 j hj
          simpa using hch

/-! ### C10 -/

/-- C10: when the LLM decision protocol succeeds, the returned metadata's
`tries` field is the zero-based index of the successful attempt — one less
than the number of attempts actually made, so a first-attempt success
reports `tries = 0`. -/
theorem c10_success_tries (oracle : String → String × Option Usage)
    (current_article target_article : String) (path_so_far links : List String)
    (max_tries a : Nat)
    (h : (choose_llm_link oracle current_article target_article path_so_far links max_tries).1 = some a) :
    (choose_llm_link oracle current_article target_article path_so_far links max_tries).2.tries + 1 =
      (choose_llm_link_raw oracle current_article target_article path_so_far links max_tries).prompts.length := by
  rcases hc : (choose_llm_link_raw oracle current_article target_article path_so_far links
      max_tries).chosen with _ | ⟨ans, usedTry⟩
  · simp [choose_llm_link, hc] at h
  · simp only [choose_llm_link, hc]
    have hc' : (chooseGo oracle
        (build_llm_prompt current_article target_article path_so_far links) links.length 0
        max_tries (build_llm_prompt current_article target_article path_so_far links)).chosen =
        some (ans, usedTry) := by
      simpa only [choose_llm_link_raw] using hc
    have ht := (chooseGo_trace oracle
        (build_llm_prompt current_article target_article path_so_far links) links.length
        max_tries 0 (build_llm_prompt current_article target_article path_so_far links)).2.2.2.2.1
        ans usedTry hc'
    simp only [choose_llm_link_raw, pyOrZero_eq]
    omega

/-- C10 witness: an oracle that answers correctly on the first attempt. -/
def c10OracleW : String → String × Option Usage :=
  fun _ => ("I guess <answer>1</answer>", none)

/-- C10 witness: a first-attempt success makes one attempt and reports
`tries = 0`. -/
theorem c10_success_tries_witness :
    (choose_llm_link c10OracleW "A" "B" ["A"] ["X", "Y"] 3).2.tries + 1 =
      (choose_llm_link_raw c10OracleW "A" "B" ["A"] ["X", "Y"] 3).prompts.length :=
  c10_success_tries c10OracleW "A" "B" ["A"] ["X", "Y"] 3 1 (by decide)

/-! ### C5 -/

/-- C5: the LLM decision protocol makes at most `max_tries` attempts (default
3, hard cap 10 at the `llm_choose_link` endpoint); the first prompt is the
base prompt and after each malformed attempt the next prompt is the same
base prompt with a trailing `IMPORTANT: <error>` hint; a successful parse
ends the loop immediately (exactly `tries + 1` attempts happen); and on
exhaustion the result has no chosen index, `tries = max_tries` and an
`answer_errors` list of length `max_tries`. -/
theorem c5_retry_policy (oracle : String → String × Option Usage)
    (current_article target_article : String) (path_so_far links : List String)
    (max_tries : Nat) :
    ((choose_llm_link_raw oracle current_article target_article path_so_far links
        max_tries).prompts.length ≤ max_tries) ∧
    (0 < (choose_llm_link_raw oracle current_article target_article path_so_far links
        max_tries).prompts.length →
      (choose_llm_link_raw oracle current_article target_article path_so_far links
        max_tries).prompts[0]? =
        some (build_llm_prompt current_article target_article path_so_far links)) ∧
    (∀ i, i + 1 < (choose_llm_link_raw oracle current_article target_article path_so_far links
        max_tries).prompts.length →
      (choose_llm_link_raw oracle current_article target_article path_so_far links
        max_tries).prompts[i + 1]? =
        ((choose_llm_link_raw oracle current_article target_article path_so_far links
          max_tries).errors[i]?).map
          (retryPrompt (build_llm_prompt current_article target_article path_so_far links))) ∧
    ((choose_llm_link oracle current_article target_article path_so_far links max_tries).1 = none →
      (choose_llm_link oracle current_article target_article path_so_far links max_tries).2.tries =
        max_tries ∧
      (choose_llm_link oracle current_article target_article path_so_far links
        max_tries).2.answer_errors =
        some (choose_llm_link_raw oracle current_article target_article path_so_far links
          max_tries).errors ∧
      (choose_llm_link_raw oracle current_article target_article path_so_far links
        max_tries).errors.length = max_tries) ∧
    (∀ a, (choose_llm_link oracle current_article target_article path_so_far links
        max_tries).1 = some a →
      (choose_llm_link_raw oracle current_article target_article path_so_far links
        max_tries).prompts.length =
        (choose_llm_link oracle current_article target_article path_so_far links
          max_tries).2.tries + 1) ∧
    llm_choose_link_max_tries none = 3 ∧
    (∀ requested, llm_choose_link_max_tries requested ≤ 10) := by
  obtain ⟨t1, t2, t3, t4, t5, t6⟩ := chooseGo_trace oracle
    (build_llm_prompt current_article target_article path_so_far links) links.length
    max_tries 0 (build_llm_prompt current_article target_article path_so_far links)
  refine ⟨?_, ?_, ?_, ?_, ?_, ?_, ?_⟩
  · simpa only [choose_llm_link_raw] using t1
  · simpa only [choose_llm_link_raw] using t3
  · simpa only [choose_llm_link_raw] using t6
  · intro h
    rcases hc : (choose_llm_link_raw oracle current_article target_article path_so_far links
        max_tries).chosen with _ | ⟨ans, u⟩
    · have hc' : (chooseGo oracle
          (build_llm_prompt current_article target_article path_so_far links) links.length 0
          max_tries (build_llm_prompt current_article target_article path_so_far links)).chosen =
          none := by
        simpa only [choose_llm_link_raw] using hc
      refine ⟨by simp [choose_llm_link, hc], by simp [choose_llm_link, hc], ?_⟩
      simpa only [choose_llm_link_raw] using (t4 hc').2
    · exfalso
      simp [choose_llm_link, hc] at h
  · intro a h
    rcases hc : (choose_llm_link_raw oracle current_article target_article path_so_far links
        max_tries).chosen with _ | ⟨ans, u⟩
    · simp [choose_llm_link, hc] at h
    · have hc' : (chooseGo oracle
          (build_llm_prompt current_article target_article path_so_far links) links.length 0
          max_tries (build_llm_prompt current_article target_article path_so_far links)).chosen =
          some (ans, u) := by
        simpa only [choose_llm_link_raw] using hc
      have hu := (t5 ans u hc').1
      simp only [choose_llm_link, hc, pyOrZero_eq]
      simp only [choose_llm_link_raw]
      omega
  · decide
  · intro requested
    unfold llm_choose_link_max_tries
    exact min_le_right _ _

/-- C5 witness oracle: never produces an answer tag. -/
def c5OracleW : String → String × Option Usage :=
  fun _ => ("no tags here", none)

/-- C5 witness: with two allowed attempts and an oracle that never answers,
the protocol exhausts with `tries = 2` and two recorded errors. -/
theorem c5_retry_policy_witness :
    (choose_llm_link c5OracleW "A" "B" ["A"] ["X"] 2).2.tries = 2 ∧
    ((choose_llm_link c5OracleW "A" "B" ["A"] ["X"] 2).2.answer_errors.getD []).length = 2 := by
  have h := (c5_retry_policy c5OracleW "A" "B" ["A"] ["X"] 2).2.2.2.1 (by decide)
  refine ⟨h.1, ?_⟩
  rw [h.2.1]
  simpa using h.2.2

/-! ### Concrete fixtures for witnesses and counterexamples -/

def rulesW : Rules :=
  { max_hops := 20, max_links := none, max_tokens := none,
    include_image_links := false, disable_links_view := false }

/-- A running LLM run that has already moved from "A" to "B". -/
def runC1 : Run :=
  { defaultRun with
    id := "run1", kind := "llm", model := some "m", status := "running",
    started_at := some "T0",
    steps := [{ type := "start", article := "A", at_ := "T0", metadata := none },
              { type := "move", article := "B", at_ := "T1", metadata := none }] }

/-- A running room holding `runC1`. -/
def roomC1 : Room :=
  { id := "room_XYZ", status := "running", start_article := "A", destination_article := "Z",
    rules := rulesW, owner_player_id := "p_owner", created_at := "T0", updated_at := "T1",
    started_at := some "T0", finished_at := none,
    players := [{ id := "p_owner", name := "Host", connected := false, joined_at := "T0" }],
    runs := [runC1] }

/-! ### C9 -/

/-- C9 (amended): abandoning a run whose kind is not `human` fails with HTTP
status 400 (not 409 as the claim states), and the room is unchanged. -/
theorem c9_abandon_non_human (room : Room) (run_id requested_by now : String) (run : Run)
    (hrun : findRunById room run_id = some run) (hkind : run.kind ≠ "human") :
    abandon_room_run room run_id requested_by now =
      .err 400 "Only human runs can be abandoned" room := by
  unfold abandon_room_run
  rw [hrun]
  simp [hkind]

/-- C9 counterexample: abandoning a concrete LLM run returns status 400 with
the room untouched, while the claim says the status is 409. -/
theorem c9_abandon_non_human_counterexample :
    abandon_room_run roomC1 "run1" "p_owner" "T2" =
      .err 400 "Only human runs can be abandoned" roomC1 ∧ (400 : Nat) ≠ 409 :=
  ⟨by decide, by decide⟩

/-- C9 witness: the amended theorem applied to the concrete LLM run. -/
theorem c9_abandon_non_human_witness :
    abandon_room_run roomC1 "run1" "p_owner" "T2" =
      .err 400 "Only human runs can be abandoned" roomC1 :=
  c9_abandon_non_human roomC1 "run1" "p_owner" "T2" runC1 (by decide) (by decide)

/-! ### C4 -/

/-- C4: an owner cancel of an LLM run removes the run outright when it has
not started, and otherwise (running) appends a terminal `lose` step with
`reason=cancelled` at the run's last known article (start article when it
has no steps) and marks the run `finished` with result `lose`. -/
theorem c4_cancel_llm_run (room : Room) (run_id requested_by now : String) (run : Run)
    (hown : requested_by = room.owner_player_id)
    (hrun : findRunById room run_id = some run)
    (hkind : run.kind = "llm") :
    (run.status = "not_started" →
      cancel_room_run room run_id requested_by now =
        .ok { room with runs := room.runs.filter (fun r => r.id ≠ run_id), updated_at := now }
          true ∧
      findRunById
        { room with runs := room.runs.filter (fun r => r.id ≠ run_id), updated_at := now }
        run_id = none) ∧
    (run.status = "running" →
      cancel_room_run room run_id requested_by now =
        .ok { room with
              runs := updateFirst (fun r => r.id = run_id)
                (fun _ => cancelledRun room run now) room.runs
              updated_at := now } true ∧
      findRunById
        { room with
          runs := updateFirst (fun r => r.id = run_id)
            (fun _ => cancelledRun room run now) room.runs
          updated_at := now } run_id = some (cancelledRun room run now) ∧
      (cancelledRun room run now).status = "finished" ∧
      (cancelledRun room run now).result = some "lose" ∧
      (cancelledRun room run now).steps =
        run.steps ++
          [{ type := "lose", article := lastKnownArticle room run, at_ := now,
             metadata := some [("reason", .s "cancelled")] }]) := by
  have hid : run.id = run_id := by
    have := List.find?_some hrun
    simpa using this
  constructor
  · intro hstat
    constructor
    · unfold cancel_room_run
      rw [hrun]
      simp [hown, hkind, hstat]
    · unfold findRunById
      rw [List.find?_eq_none]
      intro x hx
      rw [List.mem_filter] at hx
      simpa using hx.2
  · intro hstat
    refine ⟨?_, ?_, rfl, rfl, rfl⟩
    · unfold cancel_room_run
      rw [hrun]
      simp [hown, hkind, hstat]
    · unfold findRunById
      exact updateFirst_find? _ _ room.runs run hrun (by simp [cancelledRun, hid])

/-- C4 witness run in the lobby. -/
def runC4a : Run :=
  { defaultRun with id := "run4a", kind := "llm", model := some "m", status := "not_started" }

/-- C4 witness run that is running with no move yet. -/
def runC4b : Run :=
  { defaultRun with
    id := "run4b", kind := "llm", model := some "m", status := "running",
    started_at := some "T0",
    steps := [{ type := "start", article := "A", at_ := "T0", metadata := none }] }

def roomC4 : Room :=
  { roomC1 with runs := [runC4a, runC4b] }

/-- C4 witness: cancelling the lobby run removes it; cancelling the running
run appends the terminal cancelled step. -/
theorem c4_cancel_llm_run_witness :
    (cancel_room_run roomC4 "run4a" "p_owner" "T3" =
      .ok { roomC4 with runs := roomC4.runs.filter (fun r => r.id ≠ "run4a"), updated_at := "T3" }
        true) ∧
    (cancel_room_run roomC4 "run4b" "p_owner" "T3" =
      .ok { roomC4 with
            runs := updateFirst (fun r => r.id = "run4b")
              (fun _ => cancelledRun roomC4 runC4b "T3") roomC4.runs
            updated_at := "T3" } true) ∧
    (cancelledRun roomC4 runC4b "T3").steps.getLast? =
      some { type := "lose", article := "A", at_ := "T3",
             metadata := some [("reason", .s "cancelled")] } := by
  refine ⟨?_, ?_, by decide⟩
  · exact ((c4_cancel_llm_run roomC4 "run4a" "p_owner" "T3" runC4a rfl (by decide) (by decide)).1
      (by decide)).1
  · exact ((c4_cancel_llm_run roomC4 "run4b" "p_owner" "T3" runC4b rfl (by decide) (by decide)).2
      (by decide)).1

/-! ### C8 -/

/-- C8: joining a `finished` room with a non-empty name re-opens the room to
`running` (clearing `finished_at`) and appends a human run that starts
immediately: status `running`, a single `start` step at the room's start
article time-stamped with the join time. -/
theorem c8_join_finished_room (room : Room) (name player_id run_id now : String)
    (hfin : room.status = "finished") (hname : pyStrip name ≠ "") :
    join_room room name player_id run_id now =
      .ok { room with
            status := "running", finished_at := none,
            players := room.players ++
              [{ id := player_id, name := pyStrip name, connected := false, joined_at := now }],
            runs := room.runs ++
              [{ defaultRun with
                 id := run_id, kind := "human", player_id := some player_id,
                 player_name := some (pyStrip name), max_steps := room.rules.max_hops,
                 status := "running", started_at := some now,
                 steps := [{ type := "start", article := room.start_article, at_ := now,
                             metadata := none }] }],
            updated_at := now } true := by
  unfold join_room reopenRoom
  simp [hfin, hname]

/-- C8 witness room: a finished two-player room. -/
def roomC8 : Room :=
  { roomC1 with status := "finished", finished_at := some "T5", runs := [] }

/-- C8 witness: a concrete join into the finished room. -/
theorem c8_join_finished_room_witness :
    join_room roomC8 " Zoe " "p_new" "run_new" "T6" =
      .ok { roomC8 with
            status := "running", finished_at := none,
            players := roomC8.players ++
              [{ id := "p_new", name := pyStrip " Zoe ", connected := false, joined_at := "T6" }],
            runs := roomC8.runs ++
              [{ defaultRun with
                 id := "run_new", kind := "human", player_id := some "p_new",
                 player_name := some (pyStrip " Zoe "), max_steps := roomC8.rules.max_hops,
                 status := "running", started_at := some "T6",
                 steps := [{ type := "start", article := roomC8.start_article, at_ := "T6",
                             metadata := none }] }],
            updated_at := "T6" } true :=
  c8_join_finished_room roomC8 " Zoe " "p_new" "run_new" "T6" (by decide) (by decide)

/-! ### C7 -/

theorem reopenRoom_runs (room : Room) : (reopenRoom room).runs = room.runs := by
  unfold reopenRoom
  split <;> rfl

theorem activeLlmRunCount_reopen (room : Room) :
    activeLlmRunCount (reopenRoom room) = activeLlmRunCount room := by
  unfold activeLlmRunCount
  rw [reopenRoom_runs]

/-- C7: an owner `add_llm` request conflicts (409, nothing appended) exactly
when the number of LLM runs whose status is not `finished` has reached the
cap (`WIKIRACE_MAX_LLM_RUNS_PER_ROOM`, default 8); below the cap — in
particular after a formerly counted run finishes — the identical request
succeeds and appends the run. -/
theorem c7_llm_cap (cap : Nat) (room : Room) (body : AddLlmBody) (run_id now : String)
    (hm : pyStrip body.model ≠ "")
    (hown : body.requested_by_player_id = room.owner_player_id) :
    (activeLlmRunCount room ≥ cap →
      add_llm_run cap room body run_id now =
        .err 409 ("Room already has " ++ toString (activeLlmRunCount room) ++
          " AI runs (max " ++ toString cap ++ ")") (reopenRoom room) ∧
      (reopenRoom room).runs = room.runs) ∧
    (activeLlmRunCount room < cap →
      add_llm_run cap room body run_id now =
        .ok { reopenRoom room with
              runs := (reopenRoom room).runs ++ [addLlmNewRun (reopenRoom room) body run_id now]
              updated_at := now } true) ∧
    (addLlmNewRun (reopenRoom room) body run_id now).kind = "llm" ∧
    env_positive_int none 8 = 8 := by
  refine ⟨?_, ?_, by simp [addLlmNewRun], by decide⟩
  · intro hcap
    refine ⟨?_, reopenRoom_runs room⟩
    unfold add_llm_run
    rw [if_neg (by simpa using hm), if_neg (by simp [hown])]
    rw [if_pos (by rwa [activeLlmRunCount_reopen])]
    rw [activeLlmRunCount_reopen]
  · intro hcap
    unfold add_llm_run
    rw [if_neg (by simpa using hm), if_neg (by simp [hown])]
    rw [if_neg (by rw [activeLlmRunCount_reopen]; omega)]

/-- C7 witness fixtures: a cap of 2, a room at the cap, and the same room
after one LLM run finished. -/
def runC7a : Run :=
  { defaultRun with id := "run7a", kind := "llm", model := some "m", status := "running" }

def runC7b : Run :=
  { defaultRun with id := "run7b", kind := "llm", model := some "m", status := "running" }

def roomC7Full : Room := { roomC1 with runs := [runC7a, runC7b] }

def roomC7Free : Room :=
  { roomC1 with runs := [runC7a, { runC7b with status := "finished", result := some "lose" }] }

def bodyC7 : AddLlmBody :=
  { model := "gpt-test", requested_by_player_id := "p_owner", player_name := none,
    api_base := none, openai_api_mode := none, openai_reasoning_effort := none,
    openai_reasoning_summary := none, anthropic_thinking_budget_tokens := none,
    google_thinking_config := none, max_steps := none, max_links_set := false,
    max_links := none, max_tokens_set := false, max_tokens := none }

/-- C7 witness: at the cap the request conflicts with 409; after one run
finishes the identical request succeeds. -/
theorem c7_llm_cap_witness :
    (add_llm_run 2 roomC7Full bodyC7 "run9" "T7" =
      .err 409 ("Room already has " ++ toString (activeLlmRunCount roomC7Full) ++
        " AI runs (max " ++ toString 2 ++ ")") (reopenRoom roomC7Full)) ∧
    (add_llm_run 2 roomC7Free bodyC7 "run9" "T7" =
      .ok { reopenRoom roomC7Free with
            runs := (reopenRoom roomC7Free).runs ++
              [addLlmNewRun (reopenRoom roomC7Free) bodyC7 "run9" "T7"]
            updated_at := "T7" } true) := by
  constructor
  · exact ((c7_llm_cap 2 roomC7Full bodyC7 "run9" "T7" (by decide) (by decide)).1 (by decide)).1
  · exact (c7_llm_cap 2 roomC7Free bodyC7 "run9" "T7" (by decide) (by decide)).2.1 (by decide)

/-! ### C2 -/

/-- C2: a validated move that is legal and not a no-op produces a `win` step
recording the (normalized) destination article exactly when the canonical
target case-insensitively equals the destination or its canonicalization;
otherwise a `lose` step recording the canonical target with
`reason=max_hops` metadata when `next_hops = max(current_hops, 0) + 1`
reaches `max_hops`; otherwise a `move` step recording the canonical
target. -/
theorem c2_validated_move_step (db : DB)
    (current_article to_article destination_article : String)
    (current_hops max_hops : Int) (at_ : String)
    (resolved title : String) (links : List String)
    (h1 : pyNormTitle (strip_wiki_fragment to_article) ≠ "")
    (h2 : db.resolve_title (pyNormTitle (strip_wiki_fragment to_article)) = some resolved)
    (h3 : resolved ≠ "")
    (h4 : pyNormTitle destination_article ≠ "")
    (h5 : pyNormTitle (strip_wiki_fragment current_article) ≠ "")
    (h6 : titles_match (canonicalCurrentOf db current_article)
      (canonicalNextOfResolved db resolved) = false)
    (h7 : db.get_article_with_links (canonicalCurrentOf db current_article) = (some title, links))
    (h8 : title ≠ "")
    (h9 : (links.contains resolved || links.contains (canonicalNextOfResolved db resolved)) = true) :
    validate_human_move db current_article to_article destination_article current_hops max_hops
        at_ =
      (if reachedTarget db (canonicalNextOfResolved db resolved) (pyNormTitle destination_article)
       then
        .step { type := "win", article := pyNormTitle destination_article, at_ := at_,
                metadata := none }
       else if (if current_hops > 0 then current_hops else 0) + 1 ≥
          (if max_hops > 0 then max_hops else 20) then
        .step { type := "lose", article := canonicalNextOfResolved db resolved, at_ := at_,
                metadata := some [("reason", .s "max_hops"),
                  ("max_hops", .i (if max_hops > 0 then max_hops else 20))] }
       else
        .step { type := "move", article := canonicalNextOfResolved db resolved, at_ := at_,
                metadata := none }) := by
  simp [validate_human_move, h1, h2, h3, h4, h5, h6, h7, h8, h9]
  intro hm1 hm2
  have h9' : resolved ∈ links ∨ canonicalNextOfResolved db resolved ∈ links := by
    simpa using h9
  rcases h9' with h | h
  · exact absurd h hm1
  · exact absurd h hm2

/-- C2 witness article graph. -/
def dbW : DB :=
  ⟨[("Paris", ["Dog", "Berlin"]), ("Berlin", ["Paris", "Dog"]), ("Dog", ["Animal"]),
    ("Animal", ["Dog", "Paris"])]⟩

/-- C2 witness: a concrete legal non-no-op move through the branch
structure. -/
theorem c2_validated_move_step_witness :
    validate_human_move dbW "Paris" "Berlin" "Animal" 0 5 "t" =
      (if reachedTarget dbW (canonicalNextOfResolved dbW "Berlin") (pyNormTitle "Animal") then
        .step { type := "win", article := pyNormTitle "Animal", at_ := "t", metadata := none }
       else if (if (0 : Int) > 0 then (0 : Int) else 0) + 1 ≥
          (if (5 : Int) > 0 then (5 : Int) else 20) then
        .step { type := "lose", article := canonicalNextOfResolved dbW "Berlin", at_ := "t",
                metadata := some [("reason", .s "max_hops"),
                  ("max_hops", .i (if (5 : Int) > 0 then (5 : Int) else 20))] }
       else
        .step { type := "move", article := canonicalNextOfResolved dbW "Berlin", at_ := "t",
                metadata := none }) :=
  c2_validated_move_step dbW "Paris" "Berlin" "Animal" 0 5 "t" "Berlin" "Paris"
    ["Dog", "Berlin"] (by decide) (by decide) (by decide) (by decide) (by decide) (by decide)
    (by decide) (by decide) (by decide)

/-! ### C3 -/

/-- C3: a move whose target canonicalizes (case-insensitively) equal to the
run's current article is a no-op: the validator returns the no-op marker,
and `room_move` returns the prior room snapshot unchanged — no step
appended, `updated_at` untouched — with no broadcast. -/
theorem c3_noop_move :
    (∀ (db : DB) (current_article to_article destination_article : String)
        (current_hops max_hops : Int) (at_ : String) (resolved : String),
      pyNormTitle (strip_wiki_fragment to_article) ≠ "" →
      db.resolve_title (pyNormTitle (strip_wiki_fragment to_article)) = some resolved →
      resolved ≠ "" →
      pyNormTitle destination_article ≠ "" →
      pyNormTitle (strip_wiki_fragment current_article) ≠ "" →
      titles_match (canonicalCurrentOf db current_article)
        (canonicalNextOfResolved db resolved) = true →
      validate_human_move db current_article to_article destination_article current_hops
        max_hops at_ = .noop) ∧
    (∀ (db : DB) (room : Room) (player_id to_article now : String) (run : Run),
      room.status = "running" →
      findRunForPlayer room player_id = some run →
      run.status = "running" →
      room.destination_article ≠ "" →
      validate_human_move db (currentArticleOf room run) to_article room.destination_article
        (max 0 ((run.steps.length : Int) - 1))
        (if room.rules.max_hops > 0 then room.rules.max_hops else 20) now = .noop →
      room_move db room player_id to_article now = .ok room false) := by
  constructor
  · intro db current_article to_article destination_article current_hops max_hops at_ resolved
      h1 h2 h3 h4 h5 heq
    simp [validate_human_move, h1, h2, h3, h4, h5, heq]
  · intro db room player_id to_article now run hst hrun hrs hdest hval
    simp [room_move, hst, hrun, hrs, hdest, hval]

/-- C3 witness: a human run currently at "Paris". -/
def runC3 : Run :=
  { defaultRun with
    id := "run3", kind := "human", player_id := some "p_h", player_name := some "Hana",
    status := "running", started_at := some "T0",
    steps := [{ type := "start", article := "Paris", at_ := "T0", metadata := none }] }

def roomC3 : Room :=
  { roomC1 with
    destination_article := "Animal"
    runs := [runC3]
    players := [{ id := "p_h", name := "Hana", connected := false, joined_at := "T0" }] }

/-- C3 witness: moving to "paris#top" (same article up to fragment, case and
canonicalization) is a no-op returning the unchanged snapshot without
broadcast. -/
theorem c3_noop_move_witness :
    room_move dbW roomC3 "p_h" "paris#top" "T2" = .ok roomC3 false :=
  c3_noop_move.2 dbW roomC3 "p_h" "paris#top" "T2" runC3 (by decide) (by decide) (by decide)
    (by decide) (by decide)

/-! ### C1 -/

/-- C1 (amended): the reconciliation rechecks hold for `_finish_llm_run`
commits — with a snapshotted `expected_current` the step is appended exactly
when the room is still `running`, the run is still `running`, and the run's
last-step article (or the start article) still equals the snapshot, and an
aborted commit leaves the room untouched. The error-path commits through
`_fail_llm_run`, however, recheck only that the run still exists with
status `running`: they append the terminal lose step even when the room is
no longer `running` or the snapshotted article has gone stale. -/
theorem c1_commit_discipline :
    (∀ (db : DB) (room : Room) (run_id article step_type : String)
        (metadata : Option Metadata) (forced_article : Option String) (expected now : String),
      ((finish_llm_run db room run_id article step_type metadata forced_article (some expected)
          now).2 = false →
        (finish_llm_run db room run_id article step_type metadata forced_article (some expected)
          now).1 = room) ∧
      ((finish_llm_run db room run_id article step_type metadata forced_article (some expected)
          now).2 = true ↔
        room.status = "running" ∧
          ∃ run, findRunById room run_id = some run ∧ run.status = "running" ∧
            lastArticleOf room run = expected)) ∧
    (∀ (room : Room) (run_id : String) (article : Option String) (reason : String)
        (error : Option String) (now : String),
      ((fail_llm_run room run_id article reason error now).2 = false →
        (fail_llm_run room run_id article reason error now).1 = room) ∧
      ((fail_llm_run room run_id article reason error now).2 = true ↔
        ∃ run, findRunById room run_id = some run ∧ run.status = "running")) := by
  constructor
  · intro db room run_id article step_type metadata forced_article expected now
    by_cases hst : room.status = "running"
    · rcases hr : findRunById room run_id with _ | run
      · simp [finish_llm_run, hst, hr]
      · by_cases hrs : run.status = "running"
        · by_cases hart : lastArticleOf room run = expected
          · simp [finish_llm_run, hst, hr, hrs, hart]
          · simp [finish_llm_run, hst, hr, hrs, hart]
        · simp [finish_llm_run, hst, hr, hrs]
    · simp [finish_llm_run, hst]
  · intro room run_id article reason error now
    rcases hr : findRunById room run_id with _ | run
    · simp [fail_llm_run, hr]
    · by_cases hrs : run.status = "running"
      · simp [fail_llm_run, hr, hrs]
      · simp [fail_llm_run, hr, hrs]

/-- C1 counterexample: the claim extends the rechecks to error-path commits.
For the concrete running room whose run already moved to "B", an
error-path commit whose snapshotted current article is the stale "A" is
nevertheless applied by `_fail_llm_run`: the room changes and the lose step
is appended at "A", where the claim demands an abort without touching
state. -/
theorem c1_commit_discipline_counterexample :
    lastArticleOf roomC1 runC1 ≠ "A" ∧
    findRunById roomC1 "run1" = some runC1 ∧
    (fail_llm_run roomC1 "run1" (some "A") "llm_error" (some "boom") "T9").2 = true ∧
    (fail_llm_run roomC1 "run1" (some "A") "llm_error" (some "boom") "T9").1 ≠ roomC1 ∧
    ((fail_llm_run roomC1 "run1" (some "A") "llm_error" (some "boom")
        "T9").1.runs.headD defaultRun).steps.getLast? =
      some { type := "lose", article := "A", at_ := "T9",
             metadata := some [("reason", .s "llm_error"), ("error", .s "boom")] } := by
  refine ⟨by decide, by decide, by decide, by decide, by decide⟩

/-- C1 witness: the amended theorem applied to the concrete stale commit —
`_fail_llm_run` commits because the run is still running, despite the stale
snapshot. -/
theorem c1_commit_discipline_witness :
    (fail_llm_run roomC1 "run1" (some "A") "llm_error" (some "boom") "T9").2 = true :=
  ((c1_commit_discipline.2 roomC1 "run1" (some "A") "llm_error" (some "boom") "T9").2).mpr
    ⟨runC1, by decide, by decide⟩

end WikiRace
